import Mathlib

/-!
Verification of the `e2e_tests_generator` repository: a shallow embedding of
the test-generation pipeline of `src/tests/mitm/tests_generator.py` and
`src/tests/playwright/tests_generator.py` in Lean, together with theorems
settling the specification claims about it.

Modelling conventions:
* Python strings are Lean `String`s; the string predicates used by the code
  (`str.isdigit`, `str.lower`, `str.strip`, `in`, `split`, percent-decoding)
  are modelled character-exactly for ASCII data, which is the alphabet the
  claims and the capture format exercise.
* Python dictionaries are association lists that keep first-insertion order
  and update values in place, exactly like CPython dicts.
* Python floats are modelled as exact rationals of the decimal literal; no
  claim exercises IEEE rounding.
* Fallible operations (`json.loads`, regex search) return `Option`.
-/

set_option maxRecDepth 8192

namespace PyPrim

/-- Python whitespace characters as used by `str.strip()` and the regex
class `\s`, restricted to ASCII. -/
def pyIsSpace (c : Char) : Bool :=
  c = ' ' || c = '\t' || c = '\n' || c = '\r' || c = Char.ofNat 11 || c = Char.ofNat 12

/-- `str.lower()` (ASCII scope): lower-cases every character. -/
def pyLower (s : String) : String := ⟨s.data.map Char.toLower⟩

/-- `str.isdigit()` (ASCII scope): non-empty and every character a digit. -/
def pyIsdigit (s : String) : Bool := !s.data.isEmpty && s.data.all Char.isDigit

/-- `int(s)` on a digit string: base-10 value. -/
def digitsToNat (l : List Char) : Nat := l.foldl (fun a c => a * 10 + (c.toNat - 48)) 0

/-- `int(s)` on an all-digit Python string. -/
def strToInt (s : String) : Int := (digitsToNat s.data : Int)

/-- `str.strip()`: drop whitespace from both ends. -/
def stripBothWith (p : Char → Bool) (l : List Char) : List Char :=
  ((l.dropWhile p).reverse.dropWhile p).reverse

/-- `s.strip()` on a string. -/
def pyStripWs (s : String) : String := ⟨stripBothWith pyIsSpace s.data⟩

/-- `s.strip('/')`. -/
def pyStripSlash (s : String) : String := ⟨stripBothWith (· = '/') s.data⟩

/-- Does `pre` occur at the very start of `l`? -/
def isStartOf : List Char → List Char → Bool
  | [], _ => true
  | _ :: _, [] => false
  | p :: ps, c :: cs => p = c && isStartOf ps cs

/-- Python's substring test `sub in hay` on character lists. -/
def hasSubList (hay sub : List Char) : Bool :=
  if isStartOf sub hay then true
  else
    match hay with
    | [] => false
    | _ :: t => hasSubList t sub

/-- Python's substring test `sub in hay` on strings. -/
def strHasSub (hay sub : String) : Bool := hasSubList hay.data sub.data

/-- `hay.find(sub)`: index of the first occurrence, `none` when absent
(Python returns `-1`). -/
def findSubIdx (hay sub : List Char) : Option Nat :=
  if isStartOf sub hay then some 0
  else
    match hay with
    | [] => none
    | _ :: t => (findSubIdx t sub).map (· + 1)

/-- Does `suf` occur at the very end of `l` (`str.endswith`)? -/
def isEndOf (suf l : List Char) : Bool := isStartOf suf.reverse l.reverse

def isHexDigit (c : Char) : Bool :=
  c.isDigit || ('a' ≤ c && c ≤ 'f') || ('A' ≤ c && c ≤ 'F')

def hexVal (c : Char) : Nat :=
  if c.isDigit then c.toNat - 48
  else if 'a' ≤ c && c ≤ 'f' then c.toNat - 87
  else c.toNat - 55

/-- `urllib.parse.unquote`: decode `%XX` escapes.  Bytes are mapped straight
to code points (exact for the ASCII escapes the captures contain); a `%` not
followed by two hex digits is kept literally, as in Python. -/
def unquoteFuel : Nat → List Char → List Char
  | 0, l => l
  | fuel + 1, l =>
      match l with
      | [] => []
      | '%' :: a :: b :: rest =>
          if isHexDigit a && isHexDigit b then
            Char.ofNat (16 * hexVal a + hexVal b) :: unquoteFuel fuel rest
          else '%' :: unquoteFuel fuel (a :: b :: rest)
      | c :: rest => c :: unquoteFuel fuel rest

def unquoteList (l : List Char) : List Char := unquoteFuel l.length l

def unquote (s : String) : String := ⟨unquoteList s.data⟩

/-- Model of `re.search(tok ++ captureClass+ ++ close?, hay)`: scan left to
right for the first position where the literal `tok` is followed by a
non-empty run of characters satisfying `good`, optionally terminated by the
closing character `close`.  This is exactly how the generator's simple
regexes (`boundary=([^\s;]+)`, `filename="([^"]+)"`, `name="([^"]+)"`,
`Content-Type: ([^\r\n]+)`) behave. -/
def reCapture (tok : List Char) (good : Char → Bool) (close : Option Char) :
    List Char → Option String
  | [] => none
  | l@(_ :: t) =>
      (if isStartOf tok l then
        let cap := (l.drop tok.length).takeWhile good
        if cap.isEmpty then none
        else
          match close with
          | none => some ⟨cap⟩
          | some c =>
              match l.drop (tok.length + cap.length) with
              | c' :: _ => if c' = c then some ⟨cap⟩ else none
              | [] => none
      else none).orElse (fun _ => reCapture tok good close t)

/-- The base64 alphabet. -/
def b64Alphabet : List Char :=
  "ABCDEFGHIJKLMNOPQRSTUVWXYZabcdefghijklmnopqrstuvwxyz0123456789+/".data

def b64Char (n : Nat) : Char := (b64Alphabet.drop n).headD 'A'

/-- `base64.b64encode` over a byte list. -/
def b64encodeBytes : List Nat → List Char
  | [] => []
  | [a] =>
      [b64Char (a / 4), b64Char ((a % 4) * 16), '=', '=']
  | [a, b] =>
      [b64Char (a / 4), b64Char ((a % 4) * 16 + b / 16), b64Char ((b % 16) * 4), '=']
  | a :: b :: c :: rest =>
      b64Char (a / 4) :: b64Char ((a % 4) * 16 + b / 16) ::
        b64Char ((b % 16) * 4 + c / 64) :: b64Char (c % 64) :: b64encodeBytes rest

/-- `base64.b64encode(text.encode('latin-1')).decode('utf-8')`: each char is
one byte (the capture data is ASCII/latin-1 in scope). -/
def b64OfLatin1 (l : List Char) : String := ⟨b64encodeBytes (l.map (·.toNat % 256))⟩

/-- Python `<` on strings: lexicographic comparison of code points. -/
def listStrLt : List Char → List Char → Bool
  | [], [] => false
  | [], _ :: _ => true
  | _ :: _, [] => false
  | a :: as, b :: bs =>
      if a.toNat < b.toNat then true
      else if b.toNat < a.toNat then false
      else listStrLt as bs

/-- Python `a < b` on strings. -/
def strLt (a b : String) : Bool := listStrLt a.data b.data

/-- `str.split(sep)` (non-empty separator), fuelled for structural
recursion; the fuel exceeds the input length, so it never runs out. -/
def splitOnFuel (sep : List Char) : Nat → List Char → List Char → List (List Char)
  | 0, acc, rest => [acc.reverse ++ rest]
  | fuel + 1, acc, l =>
      match l with
      | [] => [acc.reverse]
      | c :: t =>
          if isStartOf sep l then
            acc.reverse :: splitOnFuel sep fuel [] (l.drop sep.length)
          else splitOnFuel sep fuel (c :: acc) t

/-- Python `s.split(sep)` for a non-empty separator (Python raises on an
empty one; no call site passes one). -/
def pySplitOn (s sep : String) : List String :=
  if sep = "" then [s]
  else (splitOnFuel sep.data (s.data.length + 1) [] s.data).map
    (fun l => (⟨l⟩ : String))

/-- Stable insertion: place `x` right before the first element not below
it, so earlier-input elements precede equal later ones. -/
def insertStable (lt : α → α → Bool) (x : α) : List α → List α
  | [] => [x]
  | y :: ys => if lt y x then y :: insertStable lt x ys else x :: y :: ys

/-- A stable sort by a strict comparison — the order CPython's stable
`sorted` produces. -/
def pySorted (lt : α → α → Bool) : List α → List α
  | [] => []
  | x :: xs => insertStable lt x (pySorted lt xs)

end PyPrim

/-! ## The Python value model

`json.loads`, `parse_value` and `extract_file_info` produce ordinary Python
values; `PyObj` is their common type.  JSON-derived dicts have string keys
only, so dict keys are `String`. -/

inductive PyObj where
  | none
  | bool (b : Bool)
  | int (n : Int)
  | float (q : Rat)
  | str (s : String)
  | list (xs : List PyObj)
  | dict (kvs : List (String × PyObj))
  deriving Repr

namespace PyObj

mutual
def beq : PyObj → PyObj → Bool
  | .none, .none => true
  | .bool a, .bool b => a == b
  | .int a, .int b => a == b
  | .float a, .float b => a == b
  | .str a, .str b => a == b
  | .list xs, .list ys => beqList xs ys
  | .dict xs, .dict ys => beqKV xs ys
  | _, _ => false

def beqList : List PyObj → List PyObj → Bool
  | [], [] => true
  | x :: xs, y :: ys => beq x y && beqList xs ys
  | _, _ => false

def beqKV : List (String × PyObj) → List (String × PyObj) → Bool
  | [], [] => true
  | (k, v) :: xs, (k', v') :: ys => k == k' && beq v v' && beqKV xs ys
  | _, _ => false
end

mutual
theorem beq_iff : ∀ a b : PyObj, beq a b = true ↔ a = b
  | .none, b => by cases b <;> simp [beq]
  | .bool a, b => by cases b <;> simp [beq]
  | .int a, b => by cases b <;> simp [beq]
  | .float a, b => by cases b <;> simp [beq]
  | .str a, b => by cases b <;> simp [beq]
  | .list xs, b => by
      cases b <;> simp only [beq, Bool.false_eq_true, false_iff, ne_eq,
        reduceCtorEq, not_false_eq_true, list.injEq]
      exact beqList_iff xs _
  | .dict xs, b => by
      cases b <;> simp only [beq, Bool.false_eq_true, false_iff, ne_eq,
        reduceCtorEq, not_false_eq_true, dict.injEq]
      exact beqKV_iff xs _

theorem beqList_iff : ∀ xs ys : List PyObj, beqList xs ys = true ↔ xs = ys
  | [], ys => by cases ys <;> simp [beqList]
  | x :: xs, ys => by
      cases ys with
      | nil => simp [beqList]
      | cons y ys =>
          simp only [beqList, Bool.and_eq_true, List.cons.injEq]
          exact and_congr (beq_iff x y) (beqList_iff xs ys)

theorem beqKV_iff : ∀ xs ys : List (String × PyObj), beqKV xs ys = true ↔ xs = ys
  | [], ys => by cases ys <;> simp [beqKV]
  | (k, v) :: xs, ys => by
      cases ys with
      | nil => simp [beqKV]
      | cons y ys =>
          obtain ⟨k', v'⟩ := y
          simp only [beqKV, Bool.and_eq_true, List.cons.injEq, Prod.mk.injEq, beq_iff_eq,
            and_assoc]
          exact and_congr Iff.rfl (and_congr (beq_iff v v') (beqKV_iff xs ys))
end

instance : DecidableEq PyObj := fun a b => decidable_of_iff _ (beq_iff a b)

/-- Python truthiness (`if x:`). -/
def truthy : PyObj → Bool
  | .none => false
  | .bool b => b
  | .int n => n ≠ 0
  | .float q => q ≠ 0
  | .str s => s ≠ ""
  | .list xs => !xs.isEmpty
  | .dict kvs => !kvs.isEmpty

end PyObj

/-! ## Python dict operations (insertion-ordered association lists) -/

namespace PyDict

/-- `d[k] = v`: update in place, keeping the first-insertion position, or
append at the end — CPython dict semantics. -/
def setKV (m : List (String × PyObj)) (k : String) (v : PyObj) : List (String × PyObj) :=
  match m with
  | [] => [(k, v)]
  | (k', v') :: rest => if k' = k then (k, v) :: rest else (k', v') :: setKV rest k v

/-- `d.get(k)` / `k in d` support: first (only) binding of `k`. -/
def findKV (k : String) : List (String × PyObj) → Option PyObj
  | [] => none
  | (k', v) :: rest => if k' = k then some v else findKV k rest

/-- `d.get(k, default)`. -/
def getD (m : List (String × PyObj)) (k : String) (d : PyObj) : PyObj :=
  (findKV k m).getD d

/-- `k in d`. -/
def hasKey (m : List (String × PyObj)) (k : String) : Bool := (findKV k m).isSome

/-- String-keyed header lookup with default, for `headers.get(name, '')`. -/
def headerGetD (m : List (String × String)) (k d : String) : String :=
  match m.find? (fun p => p.1 == k) with
  | some p => p.2
  | none => d

/-- `sorted(d.items())`: Python sorts the key/value pairs; keys in a dict are
unique, so this is a sort by key (tuple comparison never reaches the
values). -/
def sortKV (m : List (String × PyObj)) : List (String × PyObj) :=
  PyPrim.pySorted (fun a b => PyPrim.strLt a.1 b.1) m

end PyDict

/-! ## Python printers: `repr`, `str`, `pprint.pformat`, `json.dumps` -/

namespace PyShow

open PyPrim

/-- `repr` escaping inside a Python string literal quoted by `q`. -/
def pyStrEscape (q : Char) : List Char → List Char
  | [] => []
  | c :: rest =>
      (if c = '\\' then ['\\', '\\']
       else if c = q then ['\\', q]
       else if c = '\n' then ['\\', 'n']
       else if c = '\r' then ['\\', 'r']
       else if c = '\t' then ['\\', 't']
       else [c]) ++ pyStrEscape q rest

/-- `repr` of a Python string: single quotes, unless the text holds a single
quote and no double quote. -/
def pyStrRepr (s : String) : String :=
  let q : Char :=
    if s.data.contains '\'' && !(s.data.contains '"') then '"' else '\''
  ⟨q :: pyStrEscape q s.data ++ [q]⟩

/-- `repr`/`str` of a Python float, for floats that are finite decimals: the
shortest decimal form (Python prints the shortest string that round-trips;
for the short literal decimals produced by `parse_value` and `json.loads`
in this code base that is the reduced decimal itself).  Non-decimal
rationals cannot arise from those producers. -/
def floatRepr (q : Rat) : String :=
  if q < 0 then "-" ++ floatReprNN (-q)
  else floatReprNN q
where
  floatReprNN (q : Rat) : String :=
    match (List.range 40).find? (fun k => (q * ((10 : Rat) ^ k)).den = 1) with
    | some 0 => toString q.num ++ ".0"
    | some k =>
        let n := (q * ((10 : Rat) ^ k)).num.toNat
        let ipart := n / 10 ^ k
        let fpart := n % 10 ^ k
        let fdigits := Nat.toDigits 10 fpart
        let pad := List.replicate (k - fdigits.length) '0'
        toString ipart ++ "." ++ ⟨pad ++ fdigits⟩
    | none => toString q.num ++ "e" ++ toString q.den

/-- Sort key/rendered-value pairs by key: the order `sorted(d.items())`
produces (dict keys are unique, so values are never compared). -/
def sortRendered (l : List (String × String)) : List (String × String) :=
  PyPrim.pySorted (fun a b => PyPrim.strLt a.1 b.1) l

/-- Join rendered dict entries as `'k': v, ...`. -/
def joinEntries (keyLit : String → String) (l : List (String × String)) : String :=
  String.intercalate ", " (l.map (fun p => keyLit p.1 ++ ": " ++ p.2))

mutual
/-- `repr(x)` for a Python value; with `sd := true` dict keys are sorted,
which models `pprint.pformat` (whose `sort_dicts` default is `True`). -/
def pyRepr (sd : Bool) : PyObj → String
  | .none => "None"
  | .bool true => "True"
  | .bool false => "False"
  | .int n => toString n
  | .float q => floatRepr q
  | .str s => pyStrRepr s
  | .list xs => "[" ++ String.intercalate ", " (pyReprList sd xs) ++ "]"
  | .dict kvs =>
      let rendered := pyReprKVs sd kvs
      "\x7b" ++ joinEntries pyStrRepr (if sd then sortRendered rendered else rendered) ++ "\x7d"

def pyReprList (sd : Bool) : List PyObj → List String
  | [] => []
  | x :: xs => pyRepr sd x :: pyReprList sd xs

def pyReprKVs (sd : Bool) : List (String × PyObj) → List (String × String)
  | [] => []
  | (k, v) :: kvs => (k, pyRepr sd v) :: pyReprKVs sd kvs
end

/-- Python `str(x)`. -/
def pyStr : PyObj → String
  | .str s => s
  | o => pyRepr false o

/-- `pprint.pformat(x, indent=1, width=100, depth=None)`, modelled for
values whose rendering fits the 100-column width (true of every value the
theorems evaluate): a single-line `repr` with dict keys sorted. -/
def pformat (o : PyObj) : String := pyRepr true o

/-- JSON string literal escaping with `ensure_ascii=True`. -/
def jsonStrEscape : List Char → List Char
  | [] => []
  | c :: rest =>
      (if c = '\\' then ['\\', '\\']
       else if c = '"' then ['\\', '"']
       else if c = '\n' then ['\\', 'n']
       else if c = '\r' then ['\\', 'r']
       else if c = '\t' then ['\\', 't']
       else if c.toNat < 32 || c.toNat > 126 then
         '\\' :: 'u' :: (Nat.toDigits 16 c.toNat).reverse.takeD 4 '0' |>.reverse
       else [c]) ++ jsonStrEscape rest

def jsonStrLit (s : String) : String := ⟨'"' :: jsonStrEscape s.data ++ ['"']⟩

mutual
/-- `json.dumps(x, sort_keys=True)` with the default separators — the
canonical body signature used by the grouping key. -/
def jsonDumps : PyObj → String
  | .none => "null"
  | .bool true => "true"
  | .bool false => "false"
  | .int n => toString n
  | .float q => floatRepr q
  | .str s => jsonStrLit s
  | .list xs => "[" ++ String.intercalate ", " (jsonDumpsList xs) ++ "]"
  | .dict kvs =>
      "\x7b" ++ joinEntries jsonStrLit (sortRendered (jsonDumpsKVs kvs)) ++ "\x7d"

def jsonDumpsList : List PyObj → List String
  | [] => []
  | x :: xs => jsonDumps x :: jsonDumpsList xs

def jsonDumpsKVs : List (String × PyObj) → List (String × String)
  | [] => []
  | (k, v) :: kvs => (k, jsonDumps v) :: jsonDumpsKVs kvs
end

end PyShow

/-! ## `json.loads`: a strict RFC-8259 parser, as the Python `json` module -/

namespace PyJson

open PyPrim

def jsonWs (c : Char) : Bool := c = ' ' || c = '\t' || c = '\n' || c = '\r'

def skipWs (l : List Char) : List Char := l.dropWhile jsonWs

def splitDigits (l : List Char) : List Char × List Char :=
  (l.takeWhile Char.isDigit, l.dropWhile Char.isDigit)

/-- Parse a JSON number token.  Integer tokens become Python `int`s, tokens
with a fraction or exponent become `float`s (held as the exact decimal). -/
def parseNumber (l : List Char) : Option (PyObj × List Char) :=
  let (sign, l1) : Int × List Char := match l with
    | '-' :: t => (-1, t)
    | _ => (1, l)
  let (ip, l2) := splitDigits l1
  if ip.isEmpty then none
  else if ip.length > 1 && ip.headD '0' = '0' then none
  else
    let (fd, l3) : List Char × List Char := match l2 with
      | '.' :: t => splitDigits t
      | _ => ([], l2)
    let hasFrac := match l2 with
      | '.' :: _ => true
      | _ => false
    if hasFrac && fd.isEmpty then none
    else
      let (hasExp, eSign, ed, l4) : Bool × Int × List Char × List Char := match l3 with
        | 'e' :: '+' :: t => (true, 1, (splitDigits t).1, (splitDigits t).2)
        | 'e' :: '-' :: t => (true, -1, (splitDigits t).1, (splitDigits t).2)
        | 'e' :: t => (true, 1, (splitDigits t).1, (splitDigits t).2)
        | 'E' :: '+' :: t => (true, 1, (splitDigits t).1, (splitDigits t).2)
        | 'E' :: '-' :: t => (true, -1, (splitDigits t).1, (splitDigits t).2)
        | 'E' :: t => (true, 1, (splitDigits t).1, (splitDigits t).2)
        | _ => (false, 1, [], l3)
      if hasExp && ed.isEmpty then none
      else
        let mantissa : Rat :=
          (digitsToNat ip : Rat) + (digitsToNat fd : Rat) / ((10 : Rat) ^ fd.length)
        let expVal : Int := eSign * (digitsToNat ed : Int)
        let scaled : Rat := mantissa * ((10 : Rat) ^ expVal)
        let value : Rat := (sign : Rat) * scaled
        if hasFrac || hasExp then some (.float value, l4)
        else some (.int (sign * (digitsToNat ip : Int)), l4)

def hex4Val (a b c d : Char) : Nat :=
  4096 * hexVal a + 256 * hexVal b + 16 * hexVal c + hexVal d

/-- Parse the characters of a JSON string after the opening quote. -/
def parseJStrChars : List Char → Option (List Char × List Char)
  | [] => none
  | '"' :: rest => some ([], rest)
  | '\\' :: e :: rest =>
      (match e with
       | '"' => (parseJStrChars rest).map (fun p => ('"' :: p.1, p.2))
       | '\\' => (parseJStrChars rest).map (fun p => ('\\' :: p.1, p.2))
       | '/' => (parseJStrChars rest).map (fun p => ('/' :: p.1, p.2))
       | 'b' => (parseJStrChars rest).map (fun p => (Char.ofNat 8 :: p.1, p.2))
       | 'f' => (parseJStrChars rest).map (fun p => (Char.ofNat 12 :: p.1, p.2))
       | 'n' => (parseJStrChars rest).map (fun p => ('\n' :: p.1, p.2))
       | 'r' => (parseJStrChars rest).map (fun p => ('\r' :: p.1, p.2))
       | 't' => (parseJStrChars rest).map (fun p => ('\t' :: p.1, p.2))
       | 'u' =>
           match rest with
           | a :: b :: c :: d :: rest' =>
               if isHexDigit a && isHexDigit b && isHexDigit c && isHexDigit d then
                 (parseJStrChars rest').map (fun p => (Char.ofNat (hex4Val a b c d) :: p.1, p.2))
               else none
           | _ => none
       | _ => none)
  | c :: rest =>
      if c.toNat < 32 then none
      else (parseJStrChars rest).map (fun p => (c :: p.1, p.2))

mutual
/-- Parse one JSON value (after optional leading whitespace). -/
def parseVal : Nat → List Char → Option (PyObj × List Char)
  | 0, _ => none
  | n + 1, l =>
      let l := skipWs l
      match l with
      | '"' :: rest => (parseJStrChars rest).map (fun p => (PyObj.str ⟨p.1⟩, p.2))
      | '[' :: rest =>
          (match skipWs rest with
           | ']' :: rest' => some (PyObj.list [], rest')
           | _ => (parseArrElems n rest).map (fun p => (PyObj.list p.1, p.2)))
      | '\x7b' :: rest =>
          (match skipWs rest with
           | '\x7d' :: rest' => some (PyObj.dict [], rest')
           | _ => (parseObjMembers n rest).map (fun p => (PyObj.dict p.1, p.2)))
      | _ =>
          if isStartOf "true".data l then some (.bool true, l.drop 4)
          else if isStartOf "false".data l then some (.bool false, l.drop 5)
          else if isStartOf "null".data l then some (.none, l.drop 4)
          else parseNumber l

/-- Parse `value (, value)* ]`. -/
def parseArrElems : Nat → List Char → Option (List PyObj × List Char)
  | 0, _ => none
  | n + 1, l => do
      let (v, r) ← parseVal n l
      match skipWs r with
      | ',' :: r' => (parseArrElems n r').map (fun p => (v :: p.1, p.2))
      | ']' :: r' => some ([v], r')
      | _ => none

/-- Parse `"key": value (, "key": value)* }`. -/
def parseObjMembers : Nat → List Char → Option (List (String × PyObj) × List Char)
  | 0, _ => none
  | n + 1, l => do
      match skipWs l with
      | '"' :: rest => do
          let (k, r1) ← parseJStrChars rest
          match skipWs r1 with
          | ':' :: r2 => do
              let (v, r3) ← parseVal n r2
              match skipWs r3 with
              | ',' :: r4 => (parseObjMembers n r4).map (fun p => ((⟨k⟩, v) :: p.1, p.2))
              | '\x7d' :: r4 => some ([(⟨k⟩, v)], r4)
              | _ => none
          | _ => none
      | _ => none
end

/-- `json.loads(s)`: parse one JSON document; trailing garbage fails.
`json.loads` preserves the key order of the document (CPython dict), which
this parser does too.  (The Python module additionally accepts
`NaN`/`Infinity`; no capture contains them.) -/
def jsonLoads (s : String) : Option PyObj :=
  match parseVal (s.length + 2) s.data with
  | some (v, rest) => if (skipWs rest).isEmpty then some v else none
  | none => none

end PyJson

/-! ## Shared generator functions

`parse_value` and `parse_query_params` are textually identical in
`src/tests/mitm/tests_generator.py` (lines 38–56, 208–222) and
`src/tests/playwright/tests_generator.py` (lines 32–50, 96–110); they are
embedded once. -/

namespace Gen

open PyPrim

/-- `value.replace('.', '', 1)`: remove the first dot. -/
def removeFirstDot : List Char → List Char
  | [] => []
  | '.' :: rest => rest
  | c :: rest => c :: removeFirstDot rest

/-- `value.count('.')`. -/
def countDots (l : List Char) : Nat := (l.filter (· = '.')).length

/-- `float(value)` for strings passing the generator's float test (exactly
one dot, every other character a digit). -/
def decimalToRat (l : List Char) : Rat :=
  let ip := l.takeWhile (· ≠ '.')
  let fp := (l.dropWhile (· ≠ '.')).drop 1
  (digitsToNat ip : Rat) + (digitsToNat fp : Rat) / ((10 : Rat) ^ fp.length)

/-- `APITestGenerator.parse_value`. -/
def parse_value (value : String) : PyObj :=
  if value = "" then .str ""
  else if pyLower value = "null" then .none
  else if pyLower value = "true" then .bool true
  else if pyLower value = "false" then .bool false
  else if pyIsdigit value then .int (strToInt value)
  else if pyIsdigit ⟨removeFirstDot value.data⟩ && countDots value.data = 1 then
    .float (decimalToRat value.data)
  else .str value

/-- The key part of `param.split('=', 1)`. -/
def eqKeyOf (l : List Char) : List Char := l.takeWhile (· ≠ '=')

/-- The value part of `param.split('=', 1)`. -/
def eqValOf (l : List Char) : List Char := (l.dropWhile (· ≠ '=')).drop 1

/-- `APITestGenerator.parse_query_params`: split on `&`, keep only segments
containing `=`, URL-decode key and value, coerce the value, store in a dict
(later occurrences of a key overwrite earlier ones). -/
def parse_query_params (query_string : String) : List (String × PyObj) :=
  (PyPrim.pySplitOn query_string "&").foldl
    (fun params param =>
      if strHasSub param "=" then
        PyDict.setKV params (unquote ⟨eqKeyOf param.data⟩)
          (parse_value (unquote ⟨eqValOf param.data⟩))
      else params) []

end Gen

/-! ## The mitm-capture test generator (`src/tests/mitm/tests_generator.py`) -/

namespace Mitm

open PyPrim PyJson Gen

/-- The `request` dict of a capture transaction (`mitm_parser` output);
fields the generator reads via `.get` with defaults are `Option`s, with
`none` for an absent key (a JSON `null` behaves identically under `.get`). -/
structure PyReq where
  url : Option String
  method : Option String
  headers : List (String × String)
  body_text : Option String
  timestamp_iso : Option String
  deriving DecidableEq, Repr

/-- The `response` dict of a capture transaction. -/
structure PyResp where
  body_text : Option String
  status_code : Option Int
  headers : List (String × String)
  deriving DecidableEq, Repr

/-- One capture transaction.  `response = none` models a JSON `null`
response, on which `extract_api_info`'s attribute accesses raise and the
transaction is skipped; an absent `request`/`response` key behaves as an
empty dict, i.e. a record of defaults. -/
structure Transaction where
  request : PyReq
  response : Option PyResp
  deriving DecidableEq, Repr

/-- `APITestGenerator.extract_file_info` (lines 58–118): the inner loop over
the boundary-split parts. -/
def scanParts : List String → PyObj
  | [] => .none
  | part :: rest =>
      if strHasSub part "filename=" then
        match reCapture "filename=\"".data (· ≠ '"') (some '"') part.data with
        | some filename =>
            let content_type :=
              (reCapture "Content-Type: ".data (fun c => c ≠ '\r' && c ≠ '\n') none
                part.data).getD "application/octet-stream"
            let field_name :=
              (reCapture "name=\"".data (· ≠ '"') (some '"') part.data).getD "file"
            match findSubIdx part.data "\r\n\r\n".data with
            | some headerEnd =>
                let fileData0 := part.data.drop (headerEnd + 4)
                let fileData :=
                  if isEndOf "\r\n".data fileData0 then fileData0.dropLast.dropLast
                  else fileData0
                let isBinary := (fileData.take 100).any
                  (fun c => c.toNat < 32 && !(c = '\r' || c = '\n' || c = '\t'))
                if isBinary then
                  .dict [("field_name", .str field_name), ("filename", .str filename),
                         ("content_type", .str content_type), ("is_binary", .bool true),
                         ("data_base64", .str (b64OfLatin1 fileData)),
                         ("size", .int fileData.length)]
                else
                  .dict [("field_name", .str field_name), ("filename", .str filename),
                         ("content_type", .str content_type), ("is_binary", .bool false),
                         ("data_text", .str ⟨fileData⟩),
                         ("size", .int fileData.length)]
            | none => scanParts rest
        | none => scanParts rest
      else scanParts rest

/-- `APITestGenerator.extract_file_info` (lines 58–118).  Note that the
probes for `'multipart/form-data'` and `boundary=` run over the request
*body text* that is passed in, exactly as in the source. -/
def extract_file_info (request_body_text : String) : PyObj :=
  if request_body_text = "" || !strHasSub request_body_text "multipart/form-data" then
    .none
  else
    match reCapture "boundary=".data (fun c => !(pyIsSpace c || c = ';')) none
        request_body_text.data with
    | none => .none
    | some boundary => scanParts (pySplitOn request_body_text ("--" ++ boundary))

/-- `APITestGenerator.extract_request_body` (lines 120–142). -/
def extract_request_body (request : PyReq) : PyObj :=
  let request_body_text := request.body_text.getD ""
  let content_type := PyDict.headerGetD request.headers "Content-Type" ""
  if request_body_text = "" then .none
  else if strHasSub content_type "application/json" then
    match jsonLoads request_body_text with
    | some v => v
    | none => .str request_body_text
  else if strHasSub content_type "multipart/form-data" then
    extract_file_info request_body_text
  else .str request_body_text

/-- The `path`/`query` fields of `urllib.parse.urlparse`, modelled for the
URL shapes the capture sources produce (absolute `http(s)` URLs and bare
paths): fragment after the first `#` and query after the first `?` are
split off; a `scheme://netloc` head is dropped up to the next `/`. -/
def urlparsePathQuery (url : String) : String × String :=
  let noFrag := url.data.takeWhile (· ≠ '#')
  let beforeQ := noFrag.takeWhile (· ≠ '?')
  let query := (noFrag.dropWhile (· ≠ '?')).drop 1
  let path :=
    if hasSubList beforeQ "://".data then
      let afterScheme := restAfter beforeQ
      afterScheme.dropWhile (· ≠ '/')
    else beforeQ
  (⟨path⟩, ⟨query⟩)
where
  /-- The characters after the first `://`. -/
  restAfter : List Char → List Char
    | [] => []
    | l@(_ :: t) => if isStartOf "://".data l then l.drop 3 else restAfter t

/-- The normalized record `extract_api_info` builds per transaction. -/
structure ApiInfo where
  endpoint : String
  method : String
  url : String
  params : List (String × PyObj)
  request_body : PyObj
  response_data : PyObj
  response_status : Int
  response_is_file : Bool
  response_filename : Option String
  response_content_type : String
  timestamp : String
  deriving DecidableEq, Repr

/-- `APITestGenerator.extract_api_info` (lines 144–206).  Returns `none` for
the exception path: a `null` response makes the attribute accesses raise,
the handler prints and returns `None`, and the transaction is skipped. -/
def extract_api_info (t : Transaction) : Option ApiInfo :=
  match t.response with
  | Option.none => Option.none
  | some resp =>
      let url := t.request.url.getD ""
      let method := t.request.method.getD "GET"
      let response_body_text := resp.body_text.getD "\x7b\x7d"
      let pq := urlparsePathQuery url
      let params := if pq.2 ≠ "" then parse_query_params pq.2 else []
      let request_body := extract_request_body t.request
      let content_disposition := PyDict.headerGetD resp.headers "content-disposition" ""
      let response_is_file := strHasSub content_disposition "attachment"
      let response_filename : Option String :=
        if response_is_file then
          some ((reCapture "filename=\"".data (· ≠ '"') (some '"')
            content_disposition.data).getD "downloaded_file")
        else Option.none
      let response_data :=
        if response_is_file then PyObj.str response_body_text
        else if pyStripWs response_body_text ≠ "" then
          match jsonLoads response_body_text with
          | some v => v
          | Option.none => PyObj.str response_body_text
        else PyObj.dict []
      some { endpoint := pq.1, method := method, url := url, params := params,
             request_body := request_body, response_data := response_data,
             response_status := resp.status_code.getD 200,
             response_is_file := response_is_file,
             response_filename := response_filename,
             response_content_type := PyDict.headerGetD resp.headers "content-type" "",
             timestamp := t.request.timestamp_iso.getD "" }

end Mitm

/-! ## The dict-accumulation pattern of `group_by_endpoint_and_params` and
`organize_tests_by_resource`: grouping into an insertion-ordered dict of
lists. -/

namespace GroupModel

variable {κ τ : Type} [DecidableEq κ]

/-- One loop iteration: create the group on first sight, else append the
member to the existing group (dict position is kept). -/
def upsert (k : κ) (v : τ) : List (κ × List τ) → List (κ × List τ)
  | [] => [(k, [v])]
  | (k', vs) :: rest =>
      if k' = k then (k', vs ++ [v]) :: rest else (k', vs) :: upsert k v rest

/-- The whole grouping loop. -/
def groupFold (key : τ → κ) (l : List τ) : List (κ × List τ) :=
  l.foldl (fun m t => upsert (key t) t m) []

/-- Dict lookup. -/
def assocFind (k : κ) : List (κ × List τ) → Option (List τ)
  | [] => Option.none
  | (k', vs) :: rest => if k' = k then some vs else assocFind k rest

/-- The members stored under key `k` (empty when the key is absent). -/
def samplesAt (k : κ) (m : List (κ × List τ)) : List τ := (assocFind k m).getD []

end GroupModel

namespace Mitm

open PyPrim PyJson Gen

/-- The `body_key` component of the grouping key (lines 238–248). -/
inductive BodyKey where
  | nullKey
  | fileKey (field_name filename : PyObj)
  | jsonKey (dumped : String)
  | otherKey (s : String)
  deriving DecidableEq, Repr

/-- `body_key` as computed in `group_by_endpoint_and_params`: `None` for a
falsy body; `('file', field_name, filename)` for a dict with a
`field_name` key; `('json', json.dumps(body, sort_keys=True))` for other
dicts; `('other', str(body))` otherwise. -/
def body_key_of (request_body : PyObj) : BodyKey :=
  if !request_body.truthy then .nullKey
  else
    match request_body with
    | .dict kvs =>
        if PyDict.hasKey kvs "field_name" then
          .fileKey (PyDict.getD kvs "field_name" .none) (PyDict.getD kvs "filename" .none)
        else .jsonKey (PyShow.jsonDumps (.dict kvs))
    | rb => .otherKey (PyShow.pyStr rb)

/-- The grouping key `(endpoint, method, tuple(sorted(params.items())),
body_key)` (lines 236–250). -/
abbrev Signature := String × String × List (String × PyObj) × BodyKey

def signature_of (a : ApiInfo) : Signature :=
  (a.endpoint, a.method, PyDict.sortKV a.params, body_key_of a.request_body)

/-- `APITestGenerator.group_by_endpoint_and_params` (lines 224–263): walk the
transactions, skip the ones whose extraction failed, and upsert each
`api_info` into the signature-keyed dict.  (The source also stores the
first member's `endpoint`/`method`/`params`/`request_body` in the group
value; they are recovered from the first sample by `toTestData` below.) -/
def group_by_endpoint_and_params (txs : List Transaction) :
    List (Signature × List ApiInfo) :=
  GroupModel.groupFold signature_of (txs.filterMap extract_api_info)

/-- The `for i in range(len(parts)): if parts[i] == 'api' and i + 1 <
len(parts): resource = parts[i + 1]; break` loop of
`organize_tests_by_resource` (lines 542–546). -/
def findApiNext : List String → Option String
  | [] => Option.none
  | "api" :: next :: _ => some next
  | _ :: rest => findApiNext rest

/-- `re.sub(r'[^a-zA-Z0-9]', '_', ·)` character-wise. -/
def sanitizeAlnum (l : List Char) : List Char :=
  l.map (fun c => if c.isAlphanum then c else '_')

/-- `re.sub(r'[^a-zA-Z0-9_]', '_', ·)` character-wise. -/
def sanitizeAlnumU (l : List Char) : List Char :=
  l.map (fun c => if c.isAlphanum || c = '_' then c else '_')

/-- The resource-name computation of
`APITestGenerator.organize_tests_by_resource` (lines 533–553): the segment
right after a literal `api` segment, else `parts[1]` (when at least two
segments), else `'other'`; then sanitized, empty becoming
`'unknown_resource'`. -/
def resource_of (endpoint : String) : String :=
  let parts := pySplitOn (pyStripSlash endpoint) "/"
  let resource :=
    if parts.length ≥ 2 then
      match findApiNext parts with
      | some r => r
      | Option.none => if parts.length > 1 then parts.getD 1 "" else parts.getD 0 ""
    else "other"
  let sanitized : String := ⟨sanitizeAlnum resource.data⟩
  if sanitized = "" then "unknown_resource" else sanitized

/-- `re.sub(r'\.[^.]+$', '', filename)`: strip a final `.extension`. -/
def stripExt (l : List Char) : List Char :=
  let r := l.reverse
  let ext := r.takeWhile (· ≠ '.')
  match r.drop ext.length with
  | '.' :: restRev => if ext.isEmpty then l else restRev.reverse
  | _ => l

/-- Auxiliary: `dropWhile` never lengthens a list. -/
theorem length_dropWhile_le' (p : Char → Bool) (l : List Char) :
    (l.dropWhile p).length ≤ l.length := by
  induction l with
  | nil => simp
  | cons c t ih =>
      by_cases h : p c
      · simpa [List.dropWhile, h] using Nat.le_succ_of_le ih
      · simp [List.dropWhile, h]

/-- `re.sub(r'_+', '_', ·)` with a previous-was-underscore flag: each
maximal run of underscores contributes a single underscore. -/
def collapseUnderscoresAux (prevU : Bool) : List Char → List Char
  | [] => []
  | c :: rest =>
      if c = '_' then
        (if prevU then [] else ['_']) ++ collapseUnderscoresAux true rest
      else c :: collapseUnderscoresAux false rest

/-- `re.sub(r'_+', '_', ·)`: collapse runs of underscores. -/
def collapseUnderscores (l : List Char) : List Char := collapseUnderscoresAux false l

/-- The fixed allow-list of significant parameter names (lines 295–296). -/
def important_params : List String :=
  ["search", "current_page", "limit", "status", "start_date", "end_date",
   "page_size", "time_type", "pool_type", "is_rejected"]

/-- Value truncation in the name synthesizer: over 20 characters becomes the
first 10 plus `...`. -/
def truncVal (s : String) : String :=
  if s.data.length > 20 then ⟨s.data.take 10⟩ ++ "..." else s

/-- The `param_suffix` loop of `create_test_function_name` (lines 294–304). -/
def paramSuffix (params : List (String × PyObj)) : String :=
  important_params.foldl
    (fun acc name =>
      match PyDict.findKV name params with
      | some v =>
          if v ≠ PyObj.none && v ≠ PyObj.str "" then
            acc ++ "_" ++ name ++ "_" ++
              (⟨sanitizeAlnumU (truncVal (PyShow.pyStr v)).data⟩ : String)
          else acc
      | Option.none => acc) ""

/-- The `body_suffix` computation of `create_test_function_name`
(lines 276–291). -/
def bodySuffix (request_body : PyObj) : String :=
  if request_body.truthy then
    match request_body with
    | .dict kvs =>
        if PyDict.hasKey kvs "field_name" then
          -- filename is always a string here (it comes from extract_file_info)
          let filename :=
            match PyDict.getD kvs "filename" (.str "file") with
            | .str s => s
            | _ => ""
          "_upload_" ++ (⟨sanitizeAlnumU (stripExt filename.data)⟩ : String)
        else
          let keys := kvs.map Prod.fst
          if !keys.isEmpty then "_with_" ++ String.intercalate "_" (keys.take 2)
          else "_with_body"
    | _ => ""
  else ""

/-- `APITestGenerator.create_test_function_name` (lines 265–313).  The
`method` argument is accepted and ignored, as in the source. -/
def create_test_function_name (endpoint _method : String)
    (params : List (String × PyObj)) (request_body : PyObj) : String :=
  let parts := pySplitOn (pyStripSlash endpoint) "/"
  let func_name :=
    if !parts.isEmpty then
      if parts.getLast?.getD "" ≠ "" then parts.getLast?.getD ""
      else if parts.length > 1 then parts.getD (parts.length - 2) ""
      else "endpoint"
    else "endpoint"
  let body_suffix := bodySuffix request_body
  let param_suffix0 := paramSuffix params
  let param_suffix :=
    if params.length > 0 && param_suffix0 = "" then "_with_params" else param_suffix0
  let combined := func_name ++ body_suffix ++ param_suffix
  let fn := pyLower ⟨sanitizeAlnum combined.data⟩
  "test_" ++ (⟨collapseUnderscores fn.data⟩ : String)

/-- `.replace('"', '\\"')`: the escaping used by `generate_params_dict`. -/
def escDQ (l : List Char) : List Char :=
  l.flatMap (fun c => if c = '"' then ['\\', '"'] else [c])

/-- `.replace('"', '\\"').replace('\n', '\\n').replace('\r', '\\r')`: the
escaping used for string bodies and file text. -/
def escDQNL (l : List Char) : List Char :=
  l.flatMap (fun c =>
    if c = '"' then ['\\', '"']
    else if c = '\n' then ['\\', 'n']
    else if c = '\r' then ['\\', 'r']
    else [c])

/-- One line of `generate_params_dict` (lines 332–343). -/
def paramLine (kv : String × PyObj) : String :=
  match kv.2 with
  | .str v => "            \"" ++ kv.1 ++ "\": \"" ++ (⟨escDQ v.data⟩ : String) ++ "\""
  | .none => "            \"" ++ kv.1 ++ "\": None"
  | .bool b => "            \"" ++ kv.1 ++ "\": " ++ (if b then "True" else "False")
  | .int n => "            \"" ++ kv.1 ++ "\": " ++ toString n
  | .float q => "            \"" ++ kv.1 ++ "\": " ++ PyShow.floatRepr q
  | v => "            \"" ++ kv.1 ++ "\": " ++ PyShow.pyRepr false v

/-- Append a comma to every line but the last. -/
def commaAll : List String → List String
  | [] => []
  | [x] => [x]
  | x :: xs => (x ++ ",") :: commaAll xs

/-- `APITestGenerator.generate_params_dict` (lines 324–351). -/
def generate_params_dict (params : List (String × PyObj)) : String :=
  if params.isEmpty then ""
  else
    "params=\x7b\n" ++ String.intercalate "\n" (commaAll (params.map paramLine)) ++
      "\n        \x7d"

/-- Strip one leading space from each line — the `pprint` post-processing of
`generate_request_body_code` and `generate_expected_data`. -/
def stripLeadSpaces (s : String) : String :=
  String.intercalate "\n" ((PyPrim.pySplitOn s "\n").map (fun line =>
    match line.data with
    | ' ' :: rest => (⟨rest⟩ : String)
    | _ => line))

/-- `d.get(k, default)` rendered into an f-string (`str` of the value). -/
def getFStr (kvs : List (String × PyObj)) (k d : String) : String :=
  match PyDict.findKV k kvs with
  | some v => PyShow.pyStr v
  | Option.none => d

/-- `APITestGenerator.generate_file_upload_code` (lines 377–402). -/
def generate_file_upload_code (kvs : List (String × PyObj)) : String :=
  let field_name := getFStr kvs "field_name" "file"
  let filename := getFStr kvs "filename" "file"
  let content_type := getFStr kvs "content_type" "application/octet-stream"
  if (PyDict.getD kvs "is_binary" (.bool true)).truthy then
    let data_base64 := getFStr kvs "data_base64" ""
    "\n        # Подготовка файла для загрузки\n        import io\n        import base64\n" ++
    "        file_data = base64.b64decode(\"" ++ data_base64 ++ "\")\n" ++
    "        files = \x7b\n            \"" ++ field_name ++ "\": (\"" ++ filename ++
    "\", io.BytesIO(file_data), \"" ++ content_type ++ "\")\n        \x7d"
  else
    let data_text :=
      match PyDict.findKV "data_text" kvs with
      | some (.str s) => (⟨escDQNL s.data⟩ : String)
      | some v => (⟨escDQNL (PyShow.pyStr v).data⟩ : String)
      | Option.none => ""
    "\n        # Подготовка файла для загрузки\n        import io\n" ++
    "        file_data = \"" ++ data_text ++ "\".encode('utf-8')\n" ++
    "        files = \x7b\n            \"" ++ field_name ++ "\": (\"" ++ filename ++
    "\", io.BytesIO(file_data), \"" ++ content_type ++ "\")\n        \x7d"

/-- `APITestGenerator.generate_request_body_code` (lines 353–375). -/
def generate_request_body_code (request_body : PyObj) : String :=
  match request_body with
  | .none => ""
  | .dict kvs =>
      if PyDict.hasKey kvs "field_name" then generate_file_upload_code kvs
      else "json_data = " ++ stripLeadSpaces (PyShow.pformat (.dict kvs))
  | .str s => "data = \"" ++ (⟨escDQNL s.data⟩ : String) ++ "\""
  | _ => ""

/-- `APITestGenerator.generate_expected_data` (lines 404–420). -/
def generate_expected_data (sample : ApiInfo) : String :=
  if sample.response_is_file then
    match sample.response_data with
    | .str s => "\"" ++ (⟨escDQNL s.data⟩ : String) ++ "\""
    | v => PyShow.pyRepr false v
  else stripLeadSpaces (PyShow.pformat sample.response_data)

/-- `sample.get('response_filename', '')` rendered in an f-string: the key
is always present; a `None` value prints as `None`. -/
def filenameFStr : Option String → String
  | some s => s
  | Option.none => "None"

/-- The assertion lines built by `APITestGenerator.generate_test_assertions`
(lines 422–444), before the final `'\n'.join`. -/
def generate_test_assertion_lines (sample : ApiInfo) : List String :=
  ["    assert response.status_code == HTTPStatus.OK"] ++
  (if sample.response_is_file then
    ["    # Проверка заголовков для файлового ответа",
     "    assert \"content-disposition\" in response.headers",
     "    assert \"" ++ filenameFStr sample.response_filename ++
       "\" in response.headers[\"content-disposition\"]"] ++
    (if sample.response_content_type ≠ "" then
      ["    assert response.headers[\"content-type\"] == \"" ++
        sample.response_content_type ++ "\""]
     else []) ++
    ["    expected_content = " ++ generate_expected_data sample,
     "    assert response.content.decode(\"utf-8\") == expected_content"]
  else
    ["    assert json.loads(response.content.decode()) == expected"])

/-- `APITestGenerator.generate_test_assertions` (lines 422–444). -/
def generate_test_assertions (sample : ApiInfo) : String :=
  String.intercalate "\n" (generate_test_assertion_lines sample)

/-- The group value built by `group_by_endpoint_and_params`: the metadata
captured from the first member plus the sample list. -/
structure TestData where
  endpoint : String
  method : String
  params : List (String × PyObj)
  request_body : PyObj
  samples : List ApiInfo
  deriving DecidableEq, Repr

/-- Placeholder record; `samples` is never empty in a group. -/
def defaultApiInfo : ApiInfo :=
  { endpoint := "", method := "GET", url := "", params := [], request_body := .none,
    response_data := .dict [], response_status := 200, response_is_file := false,
    response_filename := Option.none, response_content_type := "", timestamp := "" }

/-- Rebuild the group value from a grouped entry: the source stores
`endpoint`/`method`/`params`/`request_body` of the member that created the
group — its first sample. -/
def toTestData (g : Signature × List ApiInfo) : TestData :=
  match g.2 with
  | a :: _ => ⟨a.endpoint, a.method, a.params, a.request_body, g.2⟩
  | [] => ⟨g.1.1, g.1.2.1, [], .none, []⟩

/-- `APITestGenerator.generate_test_function` (lines 446–531). -/
def generate_test_function (td : TestData) : String :=
  let method := td.method
  let params := td.params
  let request_body := td.request_body
  let sample := td.samples.headD defaultApiInfo
  let func_name := create_test_function_name td.endpoint method params request_body
  let expected_data := generate_expected_data sample
  let url_path := td.endpoint
  let params_str := generate_params_dict params
  let head :=
    "@pytest.mark.asyncio\nasync def " ++ func_name ++
      "(\n        fast_api_client,\n):\n    expected = " ++ expected_data ++ "\n\n"
  let body_code := generate_request_body_code request_body
  let withBody := if body_code ≠ "" then head ++ "    " ++ body_code else head
  let isFileUpload :=
    match request_body with
    | .dict kvs => PyDict.hasKey kvs "field_name"
    | _ => false
  let isDict := match request_body with | .dict _ => true | _ => false
  let isStr := match request_body with | .str _ => true | _ => false
  let callHead :=
    "\n\n    response = await fast_api_client." ++ PyPrim.pyLower method ++
      "(\n        \"" ++ url_path ++ "\""
  let callHeadNoBody :=
    "\n    response = await fast_api_client." ++ PyPrim.pyLower method ++
      "(\n        \"" ++ url_path ++ "\""
  let withParams (s : String) : String :=
    if params_str ≠ "" then s ++ ",\n        " ++ params_str else s
  let call :=
    if isFileUpload then withParams callHead ++ ",\n        files=files,\n    )"
    else if isDict then withParams callHead ++ ",\n        json=json_data,\n    )"
    else if isStr then withParams callHead ++ ",\n        content=data,\n    )"
    else withParams callHeadNoBody ++ ",\n    )"
  withBody ++ call ++ "\n\n" ++ generate_test_assertions sample ++ "\n\n"

/-- `APITestGenerator.organize_tests_by_resource` (lines 533–560): the same
dict-of-lists accumulation, keyed by the derived resource name. -/
def organize_tests_by_resource (groups : List (Signature × List ApiInfo)) :
    List (String × List TestData) :=
  GroupModel.groupFold (fun td => resource_of td.endpoint) (groups.map toTestData)

/-- Numeric view for Python `<` (bool/int/float compare numerically). -/
def pyObjNum : PyObj → Option Rat
  | .bool b => some (if b then 1 else 0)
  | .int n => some (n : Rat)
  | .float q => some q
  | _ => Option.none

/-- Python `<` on the values that can appear inside a sort key here
(numbers and strings; anything else would raise `TypeError` in Python and
is never exercised). -/
def pyObjLt (a b : PyObj) : Bool :=
  match pyObjNum a, pyObjNum b with
  | some x, some y => x < y
  | _, _ =>
      match a, b with
      | .str x, .str y => PyPrim.strLt x y
      | _, _ => false

/-- Python tuple `<` on sorted parameter items. -/
def kvListLt : List (String × PyObj) → List (String × PyObj) → Bool
  | [], [] => false
  | [], _ :: _ => true
  | _ :: _, [] => false
  | (k, v) :: xs, (k', v') :: ys =>
      if PyPrim.strLt k k' then true
      else if PyPrim.strLt k' k then false
      else if pyObjLt v v' then true
      else if pyObjLt v' v then false
      else kvListLt xs ys

/-- The `key` tuple `(endpoint, bool(request_body),
tuple(sorted(params.items())))` of `save_test_file`'s sort (lines 583–587),
compared as Python compares tuples. -/
def testSortLt (a b : TestData) : Bool :=
  if PyPrim.strLt a.endpoint b.endpoint then true
  else if PyPrim.strLt b.endpoint a.endpoint then false
  else if !a.request_body.truthy && b.request_body.truthy then true
  else if a.request_body.truthy && !b.request_body.truthy then false
  else kvListLt (PyDict.sortKV a.params) (PyDict.sortKV b.params)

/-- `sorted(tests, key=...)` — a stable sort by `testSortLt`. -/
def tests_sorted (tests : List TestData) : List TestData :=
  PyPrim.pySorted testSortLt tests

/-- `APITestGenerator.generate_test_imports` (lines 315–322). -/
def generate_test_imports : String :=
  "import json\nfrom http import HTTPStatus\n\nimport pytest\n\n"

/-- The file name chosen by `save_test_file` (lines 576–579). -/
def save_file_name (resource : String) : String :=
  if resource.data.length > 30 then "test.py" else "test_" ++ resource ++ ".py"

/-- The list of test functions `save_test_file` emits for one resource
(lines 589–592): one rendered function per grouped test, in sorted order. -/
def save_file_functions (tests : List TestData) : List String :=
  (tests_sorted tests).map generate_test_function

/-- The content `save_test_file` writes (line 594). -/
def save_file_content (tests : List TestData) : String :=
  generate_test_imports ++ String.intercalate "\n\n" (save_file_functions tests)

/-- The diagnostics `run`/`main` can print before deciding the exit code. -/
inductive Diag where
  | fileNotFound
  | loadError
  | noTransactions
  | noTestData
  deriving DecidableEq, Repr

structure RunReport where
  exitCode : Nat
  diags : List Diag
  deriving DecidableEq, Repr

/-- `APITestGenerator.run` (lines 602–654), modelled on the already-loaded
capture: `load_json_data` calls `sys.exit(1)` on any open/parse error
(`loadResult = none`); an empty transaction list prints a diagnostic and
*returns* (normal exit); an empty group dict likewise; otherwise the run
reaches the end (per-resource save errors are caught at lines 643–647),
and the process ends with exit code 0. -/
def runModel (loadResult : Option (List Transaction)) : RunReport :=
  match loadResult with
  | Option.none => ⟨1, [.loadError]⟩
  | some txs =>
      if txs.isEmpty then ⟨0, [.noTransactions]⟩
      else if (group_by_endpoint_and_params txs).isEmpty then ⟨0, [.noTestData]⟩
      else ⟨0, []⟩

/-- `main` (lines 657–671): a missing input file exits 1 before `run`. -/
def mainModel (fileExists : Bool) (loadResult : Option (List Transaction)) : RunReport :=
  if !fileExists then ⟨1, [.fileNotFound]⟩ else runModel loadResult

end Mitm

/-! ## The browser-recorder test generator
(`src/tests/playwright/tests_generator.py`) -/

namespace Pw

open PyPrim PyJson Gen

/-- The `response` sub-dict of a recorder log entry. -/
structure PwResp where
  body : Option String
  status : Option Int
  deriving DecidableEq, Repr

/-- One recorder log entry.  `response = none` models a JSON `null`, whose
`.get` raises; the handler then returns `{}`, which is falsy and skipped. -/
structure PwLog where
  url : Option String
  method : Option String
  response : Option PwResp
  timestamp : Option String
  deriving DecidableEq, Repr

/-- The capture group of `(?:https?://[^/]+)?(/api/.*?)(?:\?|$)` when tried
at the current position: a literal `/api/`, then lazily up to the first `?`
(or the end of the string). -/
def tryCap (m : List Char) : Option (List Char) :=
  if isStartOf "/api/".data m then
    some ("/api/".data ++ (m.drop 5).takeWhile (· ≠ '?'))
  else Option.none

/-- One attempt of the endpoint regex at a position: prefer consuming an
optional `https?://host` head (the host is `[^/]+`, so it can only end at
the first slash), else match the capture directly. -/
def matchFrom (l : List Char) : Option (List Char) :=
  let afterScheme : Option (List Char) :=
    if isStartOf "https://".data l then some (l.drop 8)
    else if isStartOf "http://".data l then some (l.drop 7)
    else Option.none
  let viaScheme : Option (List Char) :=
    match afterScheme with
    | some rest =>
        let host := rest.takeWhile (· ≠ '/')
        if host.isEmpty then Option.none else tryCap (rest.drop host.length)
    | Option.none => Option.none
  viaScheme.orElse (fun _ => tryCap l)

/-- `re.search` for the endpoint regex: leftmost matching position. -/
def searchEndpoint : List Char → Option String
  | [] => Option.none
  | l@(_ :: t) =>
      match matchFrom l with
      | some c => some (⟨c⟩ : String)
      | Option.none => searchEndpoint t

/-- The endpoint computation of `extract_api_info` (lines 60–69). -/
def endpointOf (url : String) : String :=
  match searchEndpoint url.data with
  | some e => e
  | Option.none =>
      if url.data.headD ' ' = '/' then (⟨url.data.takeWhile (· ≠ '?')⟩ : String)
      else if strHasSub url "/api/" then "/" ++ (pySplitOn url "/api/").getLastD ""
      else url

/-- The normalized record the recorder generator builds per log entry. -/
structure PwApiInfo where
  endpoint : String
  method : String
  url : String
  params : List (String × PyObj)
  response_data : PyObj
  response_status : Int
  timestamp : String
  deriving DecidableEq, Repr

/-- `APITestGenerator.extract_api_info` of the recorder generator
(lines 52–94).  A JSON decode failure of the response body falls back to an
empty dict (not the raw string). -/
def extract_api_info (log : PwLog) : Option PwApiInfo :=
  match log.response with
  | Option.none => Option.none
  | some resp =>
      let url := log.url.getD ""
      let method := log.method.getD "GET"
      let response_body := resp.body.getD "\x7b\x7d"
      let endpoint := endpointOf url
      let params :=
        if strHasSub url "?" then parse_query_params ((pySplitOn url "?").getD 1 "")
        else []
      let response_data :=
        match jsonLoads response_body with
        | some v => v
        | Option.none => PyObj.dict []
      some { endpoint := endpoint, method := method, url := url, params := params,
             response_data := response_data,
             response_status := resp.status.getD 200,
             timestamp := log.timestamp.getD "" }

/-- The grouping key `(endpoint, method, tuple(sorted(params.items())))`
(lines 123–125): no body component in this generator. -/
abbrev Signature := String × String × List (String × PyObj)

def signature_of (a : PwApiInfo) : Signature :=
  (a.endpoint, a.method, PyDict.sortKV a.params)

/-- `APITestGenerator.group_by_endpoint_and_params` (lines 112–137). -/
def group_by_endpoint_and_params (logs : List PwLog) :
    List (Signature × List PwApiInfo) :=
  GroupModel.groupFold signature_of (logs.filterMap extract_api_info)

/-- The stoplists of `organize_tests_by_resource` (lines 287–289). -/
def isStopSeg (s : String) : Bool :=
  s = "api" || s = "v1" || s = "v2" || s = "v3" || s = "v4" || s = "v5" ||
  s = "workspace" || s = "new_operplan" || s = "perspective_plan"

/-- The scan from index 2 for the first meaningful segment (lines 284–291). -/
def findMeaningful : List String → Option String
  | [] => Option.none
  | s :: rest => if s ≠ "" && !isStopSeg s then some s else findMeaningful rest

/-- The resource-name computation of the recorder generator's
`organize_tests_by_resource` (lines 272–303). -/
def resource_of (endpoint : String) : String :=
  let parts := pySplitOn (pyStripSlash endpoint) "/"
  let resource :=
    if parts.length ≥ 3 then
      match findMeaningful (parts.drop 2) with
      | some r => r
      | Option.none =>
          if parts.getLast?.getD "" ≠ "" then parts.getLast?.getD ""
          else parts.getD (parts.length - 2) ""
    else if parts.length = 2 then parts.getD 1 ""
    else "other"
  let sanitized : String := ⟨Mitm.sanitizeAlnum resource.data⟩
  if sanitized = "" then "unknown_resource" else sanitized

/-- The recorder generator's `run` (lines 357–396): `load_json_data` exits 1
on open/parse failure; there is no empty-input check before grouping, so an
empty capture reaches the `if not self.endpoint_tests` branch, prints a
diagnostic, returns, and the process exits 0; otherwise the run completes
normally (exit 0). -/
def runModel (loadResult : Option (List PwLog)) : Mitm.RunReport :=
  match loadResult with
  | Option.none => ⟨1, [.loadError]⟩
  | some logs =>
      if (group_by_endpoint_and_params logs).isEmpty then ⟨0, [.noTestData]⟩
      else ⟨0, []⟩

/-- The recorder generator's `main` (lines 399–413). -/
def mainModel (fileExists : Bool) (loadResult : Option (List PwLog)) : Mitm.RunReport :=
  if !fileExists then ⟨1, [.fileNotFound]⟩ else runModel loadResult

end Pw

/-! ## Supporting definitions for the claim theorems -/

/-- Is the value an `int`? (shape of `parse_value`'s integer branch). -/
def pyIsIntObj : PyObj → Bool
  | .int _ => true
  | _ => false

/-- Spec-side definition for claim C10: the coerced value of the *last*
occurrence of key `k` in an entry list, `none` when `k` never occurs. -/
def lastVal (k : String) : List (String × PyObj) → Option PyObj
  | [] => Option.none
  | (k', v) :: rest =>
      match lastVal k rest with
      | some v' => some v'
      | Option.none => if k' = k then some v else Option.none

/-- Spec-side definition for claim C10: the key/coerced-value pairs of the
`&`-separated segments that contain `=`, in segment order. -/
def segEntries (segs : List String) : List (String × PyObj) :=
  (segs.filter (fun p => PyPrim.strHasSub p "=")).map
    (fun p => (PyPrim.unquote ⟨Gen.eqKeyOf p.data⟩,
               Gen.parse_value (PyPrim.unquote ⟨Gen.eqValOf p.data⟩)))

/-- The claim C1 scenario body (spec §8): a multipart body with boundary
`B`, field `file`, filename `a.txt`, text payload `HELLO`. -/
def mpBody : String :=
  "--B\r\nContent-Disposition: form-data; name=\"file\"; filename=\"a.txt\"\r\nContent-Type: text/plain\r\n\r\nHELLO\r\n--B--"

/-- The claim C1 scenario request: the body above with request header
`Content-Type: multipart/form-data; boundary=B`. -/
def mpReq : Mitm.PyReq :=
  { url := some "http://h/api/upload", method := some "POST",
    headers := [("Content-Type", "multipart/form-data; boundary=B")],
    body_text := some mpBody, timestamp_iso := Option.none }

/-- A transaction whose response body is the blank string `" "` (not valid
JSON) and carries no `Content-Disposition` header — the claim C6 edge. -/
def blankBodyTx : Mitm.Transaction :=
  { request := { url := some "/api/x", method := some "GET", headers := [],
                 body_text := Option.none, timestamp_iso := Option.none },
    response := some { body_text := some " ", status_code := some 200, headers := [] } }

/-- A transaction whose response carries `Content-Disposition: attachment`
— a concrete file-response input. -/
def attachTx : Mitm.Transaction :=
  { request := { url := some "/api/download", method := some "GET", headers := [],
                 body_text := Option.none, timestamp_iso := Option.none },
    response := some { body_text := some "FILEDATA", status_code := some 200,
                       headers := [("content-disposition", "attachment; filename=\"r.txt\""),
                                   ("content-type", "text/plain")] } }

/-- `GET /api/greetings?name=Bob` against the demo service (`src/main.py`
`get_greetings`), captured with a JSON string response. -/
def txBob : Mitm.Transaction :=
  { request := { url := some "http://localhost:7777/api/greetings?name=Bob",
                 method := some "GET", headers := [], body_text := Option.none,
                 timestamp_iso := Option.none },
    response := some { body_text := some "\"hi Bob\"", status_code := some 200,
                       headers := [("content-type", "application/json")] } }

/-- `GET /api/greetings?name=Alice`, same endpoint, different coerced value
for the same parameter key. -/
def txAlice : Mitm.Transaction :=
  { request := { url := some "http://localhost:7777/api/greetings?name=Alice",
                 method := some "GET", headers := [], body_text := Option.none,
                 timestamp_iso := Option.none },
    response := some { body_text := some "\"hi Alice\"", status_code := some 200,
                       headers := [("content-type", "application/json")] } }

/-! ## Lemmas about the dict-accumulation grouping -/

namespace GroupModel

variable {κ τ : Type} [DecidableEq κ]

theorem assocFind_upsert (k k' : κ) (v : τ) (m : List (κ × List τ)) :
    assocFind k (upsert k' v m) =
      if k' = k then some ((assocFind k m).getD [] ++ [v]) else assocFind k m := by
  induction m with
  | nil => by_cases h : k' = k <;> simp [upsert, assocFind, h]
  | cons p rest ih =>
      obtain ⟨k0, vs⟩ := p
      by_cases h0 : k0 = k'
      · subst h0
        by_cases hk : k0 = k <;> simp [upsert, assocFind, hk]
      · by_cases hk : k0 = k
        · subst hk
          have : ¬ k' = k0 := fun h => h0 h.symm
          simp [upsert, assocFind, h0, this]
        · simp [upsert, assocFind, h0, hk, ih]

/-- The grouping loop starting from an arbitrary accumulator. -/
def foldStep (key : τ → κ) (m : List (κ × List τ)) (l : List τ) : List (κ × List τ) :=
  l.foldl (fun m t => upsert (key t) t m) m

theorem foldStep_nil (key : τ → κ) (m : List (κ × List τ)) : foldStep key m [] = m := rfl

theorem foldStep_cons (key : τ → κ) (m : List (κ × List τ)) (t : τ) (l : List τ) :
    foldStep key m (t :: l) = foldStep key (upsert (key t) t m) l := rfl

theorem groupFold_eq_foldStep (key : τ → κ) (l : List τ) :
    groupFold key l = foldStep key [] l := rfl

theorem assocFind_foldStep (key : τ → κ) (k : κ) :
    ∀ (l : List τ) (m : List (κ × List τ)),
      assocFind k (foldStep key m l) =
        (let fs := l.filter (fun t => decide (key t = k))
         if fs.isEmpty then assocFind k m
         else some ((assocFind k m).getD [] ++ fs))
  | [], m => by simp [foldStep]
  | t :: l, m => by
      rw [foldStep_cons]
      rw [assocFind_foldStep key k l (upsert (key t) t m)]
      by_cases h : key t = k
      · have hfil : (t :: l).filter (fun t => decide (key t = k)) =
            t :: l.filter (fun t => decide (key t = k)) := by
          simp [List.filter_cons, h]
        rw [hfil, assocFind_upsert]
        simp only [h, if_true]
        by_cases hfs : (l.filter (fun t => decide (key t = k))).isEmpty
        · simp only [List.isEmpty_iff] at hfs
          simp [hfs]
        · have hfs' : (t :: l.filter (fun t => decide (key t = k))).isEmpty = false := by
            simp
          simp only [hfs, if_false, hfs', Option.getD_some]
          simp [List.append_assoc]
      · have hfil : (t :: l).filter (fun t => decide (key t = k)) =
            l.filter (fun t => decide (key t = k)) := by
          simp [List.filter_cons, h]
        rw [hfil, assocFind_upsert]
        simp [h]

theorem samplesAt_groupFold (key : τ → κ) (k : κ) (l : List τ) :
    samplesAt k (groupFold key l) = l.filter (fun t => decide (key t = k)) := by
  rw [samplesAt, groupFold_eq_foldStep, assocFind_foldStep]
  by_cases hfs : (l.filter (fun t => decide (key t = k))).isEmpty
  · simp only [hfs, if_true, assocFind]
    simp only [List.isEmpty_iff] at hfs
    simp [hfs]
  · simp [hfs, assocFind]

theorem keys_upsert (k : κ) (v : τ) (m : List (κ × List τ)) :
    (upsert k v m).map Prod.fst =
      if k ∈ m.map Prod.fst then m.map Prod.fst else m.map Prod.fst ++ [k] := by
  induction m with
  | nil => simp [upsert]
  | cons p rest ih =>
      obtain ⟨k0, vs⟩ := p
      by_cases h0 : k0 = k
      · subst h0
        simp [upsert]
      · have : ¬ k = k0 := fun h => h0 h.symm
        simp only [upsert, h0, if_false, List.map_cons, List.mem_cons, this, false_or]
        by_cases hm : k ∈ rest.map Prod.fst <;> simp [hm, ih]

theorem assocFind_eq_none (k : κ) (m : List (κ × List τ)) :
    assocFind k m = Option.none ↔ k ∉ m.map Prod.fst := by
  induction m with
  | nil => simp [assocFind]
  | cons p rest ih =>
      obtain ⟨k0, vs⟩ := p
      by_cases h0 : k0 = k
      · subst h0
        simp [assocFind]
      · have : ¬ k = k0 := fun h => h0 h.symm
        simp [assocFind, h0, this, ih]

theorem mem_keys_groupFold (key : τ → κ) (k : κ) (l : List τ) :
    k ∈ (groupFold key l).map Prod.fst ↔ ∃ t ∈ l, key t = k := by
  have hchar := assocFind_foldStep key k l []
  rw [← groupFold_eq_foldStep] at hchar
  by_cases hfs : (l.filter (fun t => decide (key t = k))).isEmpty
  · simp only [hfs, if_true, assocFind] at hchar
    have hk : k ∉ (groupFold key l).map Prod.fst := (assocFind_eq_none k _).1 hchar
    simp only [hk, false_iff]
    simp only [List.isEmpty_iff, List.filter_eq_nil_iff, decide_eq_true_eq] at hfs
    push_neg
    exact hfs
  · simp only [hfs, if_false] at hchar
    have hk : assocFind k (groupFold key l) ≠ Option.none := by
      rw [hchar]; exact Option.some_ne_none _
    have hk' : k ∈ (groupFold key l).map Prod.fst := by
      by_contra hmem
      exact hk ((assocFind_eq_none k _).2 hmem)
    simp only [hk', true_iff]
    simp only [List.isEmpty_iff] at hfs
    obtain ⟨t, ht⟩ := List.exists_mem_of_ne_nil _ hfs
    obtain ⟨htl, hkey⟩ := List.mem_filter.mp ht
    exact ⟨t, htl, of_decide_eq_true hkey⟩

theorem nodup_keys_foldStep (key : τ → κ) :
    ∀ (l : List τ) (m : List (κ × List τ)),
      ((m.map Prod.fst).Nodup) → ((foldStep key m l).map Prod.fst).Nodup
  | [], m, h => h
  | t :: l, m, h => by
      rw [foldStep_cons]
      apply nodup_keys_foldStep key l
      rw [keys_upsert]
      by_cases hm : key t ∈ m.map Prod.fst
      · simpa [hm] using h
      · simp only [hm, if_false]
        simp [List.nodup_append, h, hm]

theorem nodup_keys_groupFold (key : τ → κ) (l : List τ) :
    ((groupFold key l).map Prod.fst).Nodup :=
  nodup_keys_foldStep key l [] (by simp)

end GroupModel

/-! ## Claim theorems -/

/-- Claim C9: value coercion on specific inputs — `""` stays the empty
string, `"NULL"` becomes null, `"True"` becomes true, `"42"` becomes the
integer 42, `"3.14"` the float 3.14, and `"3.1.4"` / `"abc"` stay strings,
per the fixed check order of `parse_value`. -/
theorem claim_C9_coercion_scenarios :
    Gen.parse_value "" = PyObj.str "" ∧
    Gen.parse_value "NULL" = PyObj.none ∧
    Gen.parse_value "True" = PyObj.bool true ∧
    Gen.parse_value "42" = PyObj.int 42 ∧
    Gen.parse_value "3.14" = PyObj.float (314 / 100 : Rat) ∧
    Gen.parse_value "3.1.4" = PyObj.str "3.1.4" ∧
    Gen.parse_value "abc" = PyObj.str "abc" := by
  refine ⟨rfl, rfl, rfl, rfl, ?_, rfl, rfl⟩
  have h : Gen.parse_value "3.14" = PyObj.float (Gen.decimalToRat "3.14".data) := rfl
  have e : Gen.decimalToRat "3.14".data =
      ((3 : Nat) : Rat) + ((14 : Nat) : Rat) / ((10 : Rat) ^ (2 : Nat)) := rfl
  rw [h, e]
  norm_num

/-- Claim C4 counterexample: the mitm generator's resource partitioning
maps `/api/v1/orders/123` to `"v1"` — the segment immediately after the
literal `api` — not to `"orders"` as claimed. -/
theorem claim_C4_counterexample :
    Mitm.resource_of "/api/v1/orders/123" = "v1" ∧
    Mitm.resource_of "/api/v1/orders/123" ≠ "orders" :=
  ⟨rfl, by decide⟩

/-- Claim C4 (amended): the mitm generator takes the segment right after a
literal `api` segment with no version skipping, mapping
`/api/v1/orders/123` to `"v1"`; only the playwright generator, which scans
from the third segment past `v1`…`v5` and the stoplist, maps it to
`"orders"`. -/
theorem claim_C4_amended :
    Mitm.resource_of "/api/v1/orders/123" = "v1" ∧
    Pw.resource_of "/api/v1/orders/123" = "orders" :=
  ⟨rfl, rfl⟩

/-- Claim C1: evaluation at the claimed scenario.  `extract_request_body`
dispatches on the `Content-Type` *header* to `extract_file_info`, but
`extract_file_info` then probes the *body text* for the substrings
`multipart/form-data` and `boundary=`; the claimed body contains neither,
so the upload is not extracted and the result is `None`.  Prepending a line
that carries those substrings to the same body makes the extraction return
exactly the upload the claim describes — the body probe, not the
extraction logic, is what breaks the scenario. -/
theorem claim_C1_multipart_eval :
    Mitm.extract_request_body mpReq = PyObj.none ∧
    Mitm.extract_file_info mpBody = PyObj.none ∧
    Mitm.extract_file_info ("Content-Type: multipart/form-data; boundary=B\r\n" ++ mpBody) =
      PyObj.dict [("field_name", .str "file"), ("filename", .str "a.txt"),
                  ("content_type", .str "text/plain"), ("is_binary", .bool false),
                  ("data_text", .str "HELLO"), ("size", .int 5)] :=
  ⟨rfl, rfl, rfl⟩

/-- Claim C3 counterexample: a capture that loads fine but holds zero
transactions makes the mitm generator print its diagnostic and return
normally — the process exits 0, not non-zero as claimed. -/
theorem claim_C3_counterexample :
    Mitm.mainModel true (some []) = { exitCode := 0, diags := [.noTransactions] } :=
  rfl

/-- Claim C3 (amended): a non-existent input file and a failed JSON load
exit 1 with a diagnostic, in both generators; zero (usable) transactions
print a diagnostic but exit 0; every successfully loaded capture exits 0. -/
theorem claim_C3_amended :
    (∀ r, Mitm.mainModel false r = { exitCode := 1, diags := [.fileNotFound] }) ∧
    Mitm.mainModel true Option.none = { exitCode := 1, diags := [.loadError] } ∧
    Mitm.mainModel true (some []) = { exitCode := 0, diags := [.noTransactions] } ∧
    (∀ txs, (Mitm.mainModel true (some txs)).exitCode = 0) ∧
    (∀ r, Pw.mainModel false r = { exitCode := 1, diags := [.fileNotFound] }) ∧
    Pw.mainModel true Option.none = { exitCode := 1, diags := [.loadError] } ∧
    Pw.mainModel true (some []) = { exitCode := 0, diags := [.noTestData] } ∧
    (∀ logs, (Pw.mainModel true (some logs)).exitCode = 0) := by
  refine ⟨fun r => rfl, rfl, rfl, fun txs => ?_, fun r => rfl, rfl, rfl, fun logs => ?_⟩
  · show (Mitm.runModel (some txs)).exitCode = 0
    simp only [Mitm.runModel]
    split_ifs <;> rfl
  · show (Pw.runModel (some logs)).exitCode = 0
    simp only [Pw.runModel]
    split_ifs <;> rfl

/-- Claim C3 witness: the amended theorem applied to a concrete non-empty
capture. -/
theorem claim_C3_amended_witness :
    (Mitm.mainModel true (some [txBob])).exitCode = 0 ∧
    (Pw.mainModel true (some [])).exitCode = 0 :=
  ⟨claim_C3_amended.2.2.2.1 [txBob], claim_C3_amended.2.2.2.2.2.2.2 []⟩

/-- Claim C5 counterexample: for the JSON body `{"b": 1, "a": 2}` the
synthesized name uses the keys in their document (insertion) order —
`test_items_with_b_a` — while the first two keys in sorted order are
`a, b`, so the claimed `with_`-suffix from *sorted* keys would be
`with_a_b`. -/
theorem claim_C5_counterexample :
    Mitm.create_test_function_name "/api/items" "POST" []
        (PyObj.dict [("b", PyObj.int 1), ("a", PyObj.int 2)]) = "test_items_with_b_a" ∧
    ((PyDict.sortKV [("b", PyObj.int 1), ("a", PyObj.int 2)]).map Prod.fst).take 2
        = ["a", "b"] ∧
    Mitm.create_test_function_name "/api/items" "POST" []
        (PyObj.dict [("b", PyObj.int 1), ("a", PyObj.int 2)]) ≠ "test_items_with_a_b" :=
  ⟨rfl, by decide, by decide⟩

/-- Claim C6 counterexample: a response whose body is the blank string
`" "` — not valid JSON — and which carries no attachment header yields the
expected value `{}` (the initial empty dict), not the raw response string
as claimed. -/
theorem claim_C6_counterexample :
    (Mitm.extract_api_info blankBodyTx).map (fun a => a.response_data)
        = some (PyObj.dict []) ∧
    PyJson.jsonLoads " " = Option.none ∧
    PyObj.dict [] ≠ PyObj.str " " :=
  ⟨rfl, rfl, by decide⟩

/-- Lower-casing fixes digits. -/
theorem toLower_digit (c : Char) (h : c.isDigit = true) : c.toLower = c := by
  simp only [Char.isDigit, Bool.and_eq_true, decide_eq_true_eq] at h
  have h2 : c.toNat ≤ 57 := h.2
  unfold Char.toLower
  have hno : ¬ (c.toNat ≥ 65 ∧ c.toNat ≤ 90) := by omega
  simp [hno]

theorem map_toLower_digits (l : List Char) (h : l.all Char.isDigit = true) :
    l.map Char.toLower = l := by
  induction l with
  | nil => rfl
  | cons c t ih =>
      simp only [List.all_cons, Bool.and_eq_true] at h
      simp [toLower_digit c h.1, ih h.2]

theorem pyLower_of_digits (s : String) (h : s.data.all Char.isDigit = true) :
    PyPrim.pyLower s = s := by
  unfold PyPrim.pyLower
  rw [map_toLower_digits s.data h]

/-- An all-digit string is none of the keyword literals `parse_value`
checks before the integer branch. -/
theorem digits_ne_keyword (s : String) (h : s.data.all Char.isDigit = true) :
    PyPrim.pyLower s ≠ "null" ∧ PyPrim.pyLower s ≠ "true" ∧ PyPrim.pyLower s ≠ "false" := by
  rw [pyLower_of_digits s h]
  refine ⟨fun heq => ?_, fun heq => ?_, fun heq => ?_⟩ <;>
    (subst heq; exact absurd h (by decide))

theorem data_ne_nil_of_ne_empty (s : String) (h : s ≠ "") : s.data ≠ [] := by
  intro hd
  apply h
  cases s
  simp_all

/-- Claim C2 counterexample: the empty string vacuously satisfies “all
characters are ASCII digits”, yet `parse_value` returns `String("")`, not
an integer — the claimed biconditional fails at `""`. -/
theorem claim_C2_counterexample :
    ¬ (pyIsIntObj (Gen.parse_value "") = true ↔
        ("" : String).data.all Char.isDigit = true) := by
  decide

/-- Claim C2 (amended): `parse_value` is total — every string lands in
exactly one of the five value shapes — and the integer branch applies
exactly for the *non-empty* all-ASCII-digit strings, in which case base-10
parsing yields `int(s)`. -/
theorem claim_C2_amended (s : String) :
    (pyIsIntObj (Gen.parse_value s) = true ↔
      (s ≠ "" ∧ s.data.all Char.isDigit = true)) ∧
    (s ≠ "" → s.data.all Char.isDigit = true →
      Gen.parse_value s = PyObj.int (PyPrim.strToInt s)) ∧
    ((∃ t, Gen.parse_value s = PyObj.str t) ∨ Gen.parse_value s = PyObj.none ∨
     (∃ b, Gen.parse_value s = PyObj.bool b) ∨ (∃ n, Gen.parse_value s = PyObj.int n) ∨
     (∃ q, Gen.parse_value s = PyObj.float q)) := by
  have hint : ∀ hne : s ≠ "", s.data.all Char.isDigit = true →
      Gen.parse_value s = PyObj.int (PyPrim.strToInt s) := by
    intro hne hall
    obtain ⟨h1, h2, h3⟩ := digits_ne_keyword s hall
    have h4 : PyPrim.pyIsdigit s = true := by
      unfold PyPrim.pyIsdigit
      simp [List.isEmpty_iff, data_ne_nil_of_ne_empty s hne, hall]
    unfold Gen.parse_value
    rw [if_neg hne, if_neg h1, if_neg h2, if_neg h3, if_pos h4]
  refine ⟨⟨?_, fun ⟨hne, hall⟩ => by rw [hint hne hall]; rfl⟩, hint, ?_⟩
  · intro h
    unfold Gen.parse_value at h
    split_ifs at h with h1 h2 h3 h4 h5 h6
    · exact absurd h (by decide)
    · exact absurd h (by decide)
    · exact absurd h (by decide)
    · exact absurd h (by decide)
    · unfold PyPrim.pyIsdigit at h5
      simp only [Bool.and_eq_true, Bool.not_eq_eq_eq_not, Bool.not_true,
        List.isEmpty_iff] at h5
      refine ⟨fun heq => ?_, h5.2⟩
      subst heq
      simp at h5
    · simp [pyIsIntObj] at h
    · simp [pyIsIntObj] at h
  · unfold Gen.parse_value
    split_ifs
    · exact Or.inl ⟨"", rfl⟩
    · exact Or.inr (Or.inl rfl)
    · exact Or.inr (Or.inr (Or.inl ⟨true, rfl⟩))
    · exact Or.inr (Or.inr (Or.inl ⟨false, rfl⟩))
    · exact Or.inr (Or.inr (Or.inr (Or.inl ⟨_, rfl⟩)))
    · exact Or.inr (Or.inr (Or.inr (Or.inr ⟨_, rfl⟩)))
    · exact Or.inl ⟨s, rfl⟩

/-- Claim C2 witness: the amended theorem applied at `"42"`. -/
theorem claim_C2_amended_witness :
    Gen.parse_value "42" = PyObj.int (PyPrim.strToInt "42") :=
  (claim_C2_amended "42").2.1 (by decide) (by decide)

theorem findKV_setKV (m : List (String × PyObj)) (k k' : String) (v : PyObj) :
    PyDict.findKV k (PyDict.setKV m k' v) =
      if k' = k then some v else PyDict.findKV k m := by
  induction m with
  | nil => by_cases h : k' = k <;> simp [PyDict.setKV, PyDict.findKV, h]
  | cons p rest ih =>
      obtain ⟨k0, v0⟩ := p
      by_cases h0 : k0 = k'
      · subst h0
        by_cases hk : k0 = k <;> simp [PyDict.setKV, PyDict.findKV, hk]
      · by_cases hk : k0 = k
        · subst hk
          have hne : ¬ k' = k0 := fun h => h0 h.symm
          simp [PyDict.setKV, PyDict.findKV, h0, hne]
        · simp [PyDict.setKV, PyDict.findKV, h0, hk, ih]

/-- The query-parameter fold, from an arbitrary starting dict: the result
of looking up `k` is the last `=`-segment binding of `k` when one exists,
else whatever the starting dict bound. -/
theorem findKV_query_fold (k : String) :
    ∀ (segs : List String) (m : List (String × PyObj)),
      PyDict.findKV k (segs.foldl (fun params param =>
          if PyPrim.strHasSub param "=" then
            PyDict.setKV params (PyPrim.unquote ⟨Gen.eqKeyOf param.data⟩)
              (Gen.parse_value (PyPrim.unquote ⟨Gen.eqValOf param.data⟩))
          else params) m) =
        (match lastVal k (segEntries segs) with
         | some v => some v
         | Option.none => PyDict.findKV k m)
  | [], m => by simp [segEntries, lastVal]
  | p :: segs, m => by
      simp only [List.foldl_cons]
      rw [findKV_query_fold k segs _]
      by_cases hp : PyPrim.strHasSub p "=" = true
      · have hse : segEntries (p :: segs) =
            (PyPrim.unquote ⟨Gen.eqKeyOf p.data⟩,
             Gen.parse_value (PyPrim.unquote ⟨Gen.eqValOf p.data⟩)) :: segEntries segs := by
          simp [segEntries, hp]
        rw [hse]
        simp only [hp, if_true]
        cases hlv : lastVal k (segEntries segs) with
        | some v => simp [lastVal, hlv]
        | none =>
            simp only [lastVal, hlv]
            rw [findKV_setKV]
            by_cases hk : PyPrim.unquote ⟨Gen.eqKeyOf p.data⟩ = k <;> simp [hk]
      · have hse : segEntries (p :: segs) = segEntries segs := by
          simp [segEntries, hp]
        rw [hse]
        simp [hp]

/-- Claim C10: query-parameter parsing drops every `&`-segment without an
`=` and, for each decoded key, keeps exactly the coerced value of its
*last* occurrence: the lookup of any key `k` in `parse_query_params qs`
equals the last entry for `k` among the `=`-segments' decoded key /
coerced value pairs (so the grouping signature and the generated test see
only that last value). -/
theorem claim_C10_last_occurrence_wins (qs k : String) :
    PyDict.findKV k (Gen.parse_query_params qs) =
      lastVal k (segEntries (PyPrim.pySplitOn qs "&")) := by
  unfold Gen.parse_query_params
  rw [findKV_query_fold k (PyPrim.pySplitOn qs "&") []]
  cases lastVal k (segEntries (PyPrim.pySplitOn qs "&")) <;> simp [PyDict.findKV]

/-- Order independence of the dict-accumulation grouping, generically: a
permutation of the input leaves the key set (as a permutation of the
nodup key list) and every key's membership list (up to permutation)
unchanged. -/
theorem groupFold_perm {κ τ : Type} [DecidableEq κ] (key : τ → κ) (l l' : List τ)
    (h : l.Perm l') :
    ((GroupModel.groupFold key l).map Prod.fst).Perm
      ((GroupModel.groupFold key l').map Prod.fst) ∧
    ∀ K, (GroupModel.samplesAt K (GroupModel.groupFold key l)).Perm
           (GroupModel.samplesAt K (GroupModel.groupFold key l')) := by
  constructor
  · apply (List.perm_ext_iff_of_nodup (GroupModel.nodup_keys_groupFold _ _)
      (GroupModel.nodup_keys_groupFold _ _)).2
    intro K
    rw [GroupModel.mem_keys_groupFold, GroupModel.mem_keys_groupFold]
    constructor
    · rintro ⟨t, ht, hk⟩
      exact ⟨t, h.mem_iff.mp ht, hk⟩
    · rintro ⟨t, ht, hk⟩
      exact ⟨t, h.mem_iff.mpr ht, hk⟩
  · intro K
    rw [GroupModel.samplesAt_groupFold, GroupModel.samplesAt_groupFold]
    exact h.filter _

/-- Claim C7: grouping is order-independent at the set level, in both
generators — permuting the transactions permutes the (duplicate-free) list
of group signatures and, for every signature, the list of member records;
only the canonical sample (the head of that list) can differ. -/
theorem claim_C7_grouping_order_independent :
    (∀ txs txs' : List Mitm.Transaction, txs.Perm txs' →
      ((Mitm.group_by_endpoint_and_params txs).map Prod.fst).Perm
        ((Mitm.group_by_endpoint_and_params txs').map Prod.fst) ∧
      ∀ K, (GroupModel.samplesAt K (Mitm.group_by_endpoint_and_params txs)).Perm
             (GroupModel.samplesAt K (Mitm.group_by_endpoint_and_params txs'))) ∧
    (∀ logs logs' : List Pw.PwLog, logs.Perm logs' →
      ((Pw.group_by_endpoint_and_params logs).map Prod.fst).Perm
        ((Pw.group_by_endpoint_and_params logs').map Prod.fst) ∧
      ∀ K, (GroupModel.samplesAt K (Pw.group_by_endpoint_and_params logs)).Perm
             (GroupModel.samplesAt K (Pw.group_by_endpoint_and_params logs'))) :=
  ⟨fun _ _ hp => groupFold_perm Mitm.signature_of _ _ (hp.filterMap Mitm.extract_api_info),
   fun _ _ hp => groupFold_perm Pw.signature_of _ _ (hp.filterMap Pw.extract_api_info)⟩

/-- Claim C7 witness: the theorem applied to the two-transaction capture in
both orders. -/
theorem claim_C7_witness :
    ((Mitm.group_by_endpoint_and_params [txBob, txAlice]).map Prod.fst).Perm
      ((Mitm.group_by_endpoint_and_params [txAlice, txBob]).map Prod.fst) :=
  (claim_C7_grouping_order_independent.1 [txBob, txAlice] [txAlice, txBob]
    (List.Perm.swap txAlice txBob [])).1

/-- Claim C8: `GET /api/greetings?name=Bob` and `GET
/api/greetings?name=Alice` coerce to different values for the key `name`,
so their signatures differ, grouping produces two `EndpointGroup`s under
the single resource `greetings`, and the suite writer emits two separate
test functions, not one. -/
theorem claim_C8_two_groups_two_tests :
    (Mitm.extract_api_info txBob).map Mitm.signature_of ≠
      (Mitm.extract_api_info txAlice).map Mitm.signature_of ∧
    (Mitm.group_by_endpoint_and_params [txBob, txAlice]).length = 2 ∧
    (Mitm.organize_tests_by_resource
        (Mitm.group_by_endpoint_and_params [txBob, txAlice])).map Prod.fst
      = ["greetings"] ∧
    (Mitm.save_file_functions (GroupModel.samplesAt "greetings"
        (Mitm.organize_tests_by_resource
          (Mitm.group_by_endpoint_and_params [txBob, txAlice])))).length = 2 :=
  ⟨by decide, rfl, rfl, rfl⟩

/-- The body suffix for a truthy JSON-object body without a `field_name`
key: `_with_` plus the first two keys in document (insertion) order. -/
theorem bodySuffix_json (kvs : List (String × PyObj)) (hne : kvs ≠ [])
    (hfk : PyDict.hasKey kvs "field_name" = false) :
    Mitm.bodySuffix (PyObj.dict kvs) =
      "_with_" ++ String.intercalate "_" ((kvs.map Prod.fst).take 2) := by
  have ht : (PyObj.dict kvs).truthy = true := by
    simp [PyObj.truthy, List.isEmpty_iff, hne]
  have hkeys : (kvs.map Prod.fst).isEmpty = false := by
    simp [List.isEmpty_iff, hne]
  unfold Mitm.bodySuffix
  rw [if_pos ht]
  simp only [hfk, Bool.false_eq_true, if_false, hkeys, Bool.not_false, if_true]

/-- Claim C5 (amended): for an `EndpointGroup` whose request body is a JSON
object with at least one key, the body-derived name suffix is `with_` plus
the first two keys in the object's *document (insertion)* order — not in
sorted order — joined by `_`; the final name is lower-cased, with
non-alphanumeric runs collapsed to single underscores and the `test_`
prefix.  Consequently the synthesized name depends on the body only
through those first two keys. -/
theorem claim_C5_amended :
    (∀ (kvs : List (String × PyObj)), kvs ≠ [] →
      PyDict.hasKey kvs "field_name" = false →
      Mitm.bodySuffix (PyObj.dict kvs) =
        "_with_" ++ String.intercalate "_" ((kvs.map Prod.fst).take 2)) ∧
    (∀ (endpoint method : String) (params : List (String × PyObj))
        (kvs kvs' : List (String × PyObj)), kvs ≠ [] → kvs' ≠ [] →
      PyDict.hasKey kvs "field_name" = false →
      PyDict.hasKey kvs' "field_name" = false →
      (kvs.map Prod.fst).take 2 = (kvs'.map Prod.fst).take 2 →
      Mitm.create_test_function_name endpoint method params (PyObj.dict kvs) =
        Mitm.create_test_function_name endpoint method params (PyObj.dict kvs')) ∧
    Mitm.create_test_function_name "/api/items" "POST" []
        (PyObj.dict [("b", PyObj.int 1), ("a", PyObj.int 2), ("c", PyObj.int 3)])
      = "test_items_with_b_a" := by
  refine ⟨bodySuffix_json, ?_, rfl⟩
  intro endpoint method params kvs kvs' hne hne' hfk hfk' hkeys
  unfold Mitm.create_test_function_name
  rw [bodySuffix_json kvs hne hfk, bodySuffix_json kvs' hne' hfk', hkeys]

/-- Claim C5 witness: the amended theorem's suffix equation and
name-invariance applied at concrete bodies. -/
theorem claim_C5_amended_witness :
    Mitm.bodySuffix (PyObj.dict [("y", PyObj.int 1), ("x", PyObj.int 2)]) =
      "_with_" ++ String.intercalate "_" ["y", "x"] ∧
    Mitm.create_test_function_name "/api/items" "POST" []
        (PyObj.dict [("k1", PyObj.str "v"), ("k2", PyObj.int 1)]) =
      Mitm.create_test_function_name "/api/items" "POST" []
        (PyObj.dict [("k1", PyObj.int 9), ("k2", PyObj.none)]) :=
  ⟨claim_C5_amended.1 [("y", PyObj.int 1), ("x", PyObj.int 2)] (by decide) (by decide),
   claim_C5_amended.2.1 "/api/items" "POST" []
     [("k1", PyObj.str "v"), ("k2", PyObj.int 1)] [("k1", PyObj.int 9), ("k2", PyObj.none)]
     (by decide) (by decide) (by decide) (by decide) (by decide)⟩

/-- Claim C6 (amended): for every transaction with a non-null response, the
mitm generator classifies the response as a file exactly when the
`content-disposition` header value contains `attachment`; a file response
keeps the raw body as expected value and the emitted assertions include the
header-presence check and the byte-exact body-equality check; otherwise the
emitted assertion is the JSON structural-equality check, and the expected
value is the JSON decoding of the body when it parses, the raw response
string when the body is non-blank but unparsable, and the empty dict when
the body is blank.  The recorder generator instead falls back to the empty
dict on any decode failure. -/
theorem claim_C6_amended :
    (∀ (t : Mitm.Transaction) (resp : Mitm.PyResp), t.response = some resp →
      ∃ a, Mitm.extract_api_info t = some a ∧
        a.response_is_file =
          PyPrim.strHasSub (PyDict.headerGetD resp.headers "content-disposition" "")
            "attachment" ∧
        (a.response_is_file = true →
          a.response_data = PyObj.str (resp.body_text.getD "\x7b\x7d") ∧
          "    assert response.content.decode(\"utf-8\") == expected_content"
            ∈ Mitm.generate_test_assertion_lines a ∧
          "    assert \"content-disposition\" in response.headers"
            ∈ Mitm.generate_test_assertion_lines a) ∧
        (a.response_is_file = false →
          "    assert json.loads(response.content.decode()) == expected"
            ∈ Mitm.generate_test_assertion_lines a ∧
          (∀ v, PyPrim.pyStripWs (resp.body_text.getD "\x7b\x7d") ≠ "" →
            PyJson.jsonLoads (resp.body_text.getD "\x7b\x7d") = some v →
            a.response_data = v) ∧
          (PyPrim.pyStripWs (resp.body_text.getD "\x7b\x7d") ≠ "" →
            PyJson.jsonLoads (resp.body_text.getD "\x7b\x7d") = Option.none →
            a.response_data = PyObj.str (resp.body_text.getD "\x7b\x7d")) ∧
          (PyPrim.pyStripWs (resp.body_text.getD "\x7b\x7d") = "" →
            a.response_data = PyObj.dict []))) ∧
    (∀ (log : Pw.PwLog) (resp : Pw.PwResp), log.response = some resp →
      PyJson.jsonLoads (resp.body.getD "\x7b\x7d") = Option.none →
      ∃ a, Pw.extract_api_info log = some a ∧ a.response_data = PyObj.dict []) := by
  constructor
  · intro t resp h
    obtain ⟨req, tresp⟩ := t
    simp only at h
    subst h
    unfold Mitm.extract_api_info
    simp only []
    refine ⟨_, rfl, rfl, ?_, ?_⟩
    · intro hfile
      simp only at hfile
      refine ⟨?_, ?_, ?_⟩
      · simp only [hfile, if_true]
      · simp only [Mitm.generate_test_assertion_lines, hfile, if_true]
        split_ifs <;> simp
      · simp only [Mitm.generate_test_assertion_lines, hfile, if_true]
        split_ifs <;> simp
    · intro hfile
      simp only at hfile
      refine ⟨?_, ?_, ?_, ?_⟩
      · simp only [Mitm.generate_test_assertion_lines, hfile, Bool.false_eq_true, if_false]
        simp
      · intro v hblank hjson
        simp only [hfile, Bool.false_eq_true, if_false, hjson]
        rw [if_pos hblank]
      · intro hblank hjson
        simp only [hfile, Bool.false_eq_true, if_false, hjson]
        rw [if_pos hblank]
      · intro hblank
        simp only [hfile, Bool.false_eq_true, if_false, hblank]
        simp
  · intro log resp h hjson
    obtain ⟨u, m, lresp, ts⟩ := log
    simp only at h
    subst h
    unfold Pw.extract_api_info
    simp only [hjson]
    exact ⟨_, rfl, rfl⟩

/-- Claim C6 witness: the amended theorem applied to a concrete
attachment-response transaction. -/
theorem claim_C6_amended_witness :
    ∃ a, Mitm.extract_api_info attachTx = some a ∧ a.response_is_file = true := by
  obtain ⟨a, ha, hfile, _⟩ :=
    claim_C6_amended.1 attachTx
      { body_text := some "FILEDATA", status_code := some 200,
        headers := [("content-disposition", "attachment; filename=\"r.txt\""),
                    ("content-type", "text/plain")] } rfl
  refine ⟨a, ha, ?_⟩
  rw [hfile]
  decide
